import Mathlib

/-!
# Verification of the kobo-highlights import reconciliation engine

This file is a shallow embedding, in Lean 4, of the core logic of the
kobo-highlights repository (`src/kobo_highlights/functions.py` and
`src/kobo_highlights/main.py`), together with theorems settling the frozen
list of claims about that code.

Modelling conventions:

* A bookmark record (the Python `dict[str, str | None]` built by
  `query_bookmarks_from_ereader`) becomes the `Bookmark` structure.
* The markdown output directory becomes an association list from file name to
  file content (`MdDir`); a missing key models a file that does not exist.
* The ledger JSON file becomes the `LedgerFile` inductive: `absent` (no file),
  `valid ids` (a file that parses to `{"imported_bookmark_ids": [...]}`), and
  `corrupt raw` (a file whose raw bytes `raw` fail JSON parsing or structural
  validation).  JSON (de)serialisation itself is library code outside the
  repository, so a valid file is identified with the id list it parses to,
  while a corrupt file keeps its raw bytes so that byte-for-byte preservation
  is expressible.
* Interactive confirmation prompts (`rich.prompt.Confirm.ask`) become a
  boolean parameter; `typer.Abort` becomes an aborted outcome in the result.
* The sqlite snapshot becomes the `Snapshot` structure holding the rows of
  the `Bookmark` and `content` tables that the two SQL queries read.
-/

namespace KoboHighlights

/-- A bookmark record as built by `query_bookmarks_from_ereader`
(functions.py, lines 123-164): the keys `id`, `text`, `annotation`,
`title`, `author` of the Python dict.  `id` and `annotation` may be `None`
in Python, hence `Option String`. -/
structure Bookmark where
  id : Option String
  text : String
  annotation : Option String
  title : String
  author : String
deriving DecidableEq

/-- The markdown target directory: file name ↦ file content.  A name absent
from the list models `md_filepath.is_file()` returning `False`. -/
abbrev MdDir := List (String × String)

/-- `f"{bookmark['title']} - {bookmark['author']}.md"` (functions.py, line 269). -/
def mdFilename (bm : Bookmark) : String :=
  bm.title ++ " - " ++ bm.author ++ ".md"

/-- `f"> {bookmark['text']}".replace("\n", "\n> ")` (functions.py, line 273). -/
def quotedBlock (bm : Bookmark) : String :=
  ("> " ++ bm.text).replace "\n" "\n> "

/-- The pair `(text_new_file, text_existing_file)` computed at
functions.py, lines 277-283.  The Python guard is
`if annotation := bookmark["annotation"]:`, so both a `None` annotation and
an empty-string annotation (falsy in Python) take the `else` branch. -/
def bookmarkTexts (bm : Bookmark) : String × String :=
  let quote := quotedBlock bm
  match Bookmark.annotation bm with
  | some a =>
    if a.isEmpty then
      ("\n" ++ quote, "\n\n***\n\n" ++ quote)
    else
      ("\n" ++ quote ++ "\n\n" ++ a, "\n\n***\n\n" ++ quote ++ "\n\n" ++ a)
  | none => ("\n" ++ quote, "\n\n***\n\n" ++ quote)

/-- Replace the content of the first entry with key `key` (models appending
to the one existing file of that name: `md_filepath.open("a")`). -/
def setEntry : MdDir → String → String → MdDir
  | [], _, _ => []
  | (k, v) :: rest, key, newV =>
    if k = key then (k, newV) :: rest else (k, v) :: setEntry rest key newV

/-- `add_bookmark_to_md(bookmark, md_dir)` (functions.py, lines 248-290):
if the target file exists, append `text_existing_file` to it; otherwise
write `text_new_file` as the whole file content. -/
def add_bookmark_to_md (bm : Bookmark) (dir : MdDir) : MdDir :=
  let name := mdFilename bm
  match List.lookup name dir with
  | some old => setEntry dir name (old ++ (bookmarkTexts bm).2)
  | none => dir ++ [(name, (bookmarkTexts bm).1)]

/-! ## Helper lemmas about `MdDir` and strings -/

theorem lookup_setEntry_self (dir : MdDir) (k v : String) (old : String)
    (h : List.lookup k dir = some old) :
    List.lookup k (setEntry dir k v) = some v := by
  induction dir with
  | nil => simp [List.lookup] at h
  | cons hd tl ih =>
    obtain ⟨k', v'⟩ := hd
    by_cases hk : k' = k
    · subst hk
      simp [setEntry, List.lookup]
    · simp only [setEntry, if_neg hk, List.lookup]
      have hbeq : (k == k') = false := by
        simp only [beq_eq_false_iff_ne, ne_eq]
        exact fun he => hk he.symm
      simp only [List.lookup, hbeq] at h
      simp [hbeq, ih h]

theorem lookup_append_single (dir : MdDir) (k v : String)
    (h : List.lookup k dir = none) :
    List.lookup k (dir ++ [(k, v)]) = some v := by
  induction dir with
  | nil => simp [List.lookup]
  | cons hd tl ih =>
    obtain ⟨k', v'⟩ := hd
    by_cases hk : k = k'
    · subst hk
      simp [List.lookup] at h
    · have hbeq : (k == k') = false := by simp [beq_eq_false_iff_ne, hk]
      simp only [List.lookup, hbeq] at h
      simp only [List.cons_append, List.lookup, hbeq]
      exact ih h

/-- What the writer stores when the target file does not exist yet. -/
theorem add_md_new_file_eq (bm : Bookmark) (dir : MdDir)
    (hnew : List.lookup (mdFilename bm) dir = none) :
    List.lookup (mdFilename bm) (add_bookmark_to_md bm dir)
      = some (bookmarkTexts bm).1 := by
  unfold add_bookmark_to_md
  simp only [hnew]
  exact lookup_append_single dir _ _ hnew

/-- What the writer stores when the target file already exists. -/
theorem add_md_existing_eq (bm : Bookmark) (dir : MdDir) (old : String)
    (hex : List.lookup (mdFilename bm) dir = some old) :
    List.lookup (mdFilename bm) (add_bookmark_to_md bm dir)
      = some (old ++ (bookmarkTexts bm).2) := by
  unfold add_bookmark_to_md
  simp only [hex]
  exact lookup_setEntry_self dir _ _ old hex

theorem string_prepend_ne_self (s t : String) (hs : 0 < s.length) :
    s ++ t ≠ t := by
  intro h
  have hlen := congrArg String.length h
  rw [String.length_append] at hlen
  omega

theorem string_append_ne_self (s t : String) (ht : 0 < t.length) :
    s ++ t ≠ s := by
  intro h
  have hlen := congrArg String.length h
  rw [String.length_append] at hlen
  omega

/-! ## Claims C1 and C2: the document writer -/

/-- Concrete bookmark used to test the new-file path: no annotation. -/
def bmNoAnn : Bookmark :=
  { id := some "id1", text := "hello", annotation := none,
    title := "T", author := "A" }

/-- C1, counterexample: the claim says the new file's entire content is
exactly the quoted block, but the code writes
`text_new_file = f"\n{md_blockquote}"`: a leading newline precedes the
quoted block.  (The repository's own test reference `REFERENCE_MARKDOWN[0]`
starts with `"\n"` as well.) -/
theorem C1_new_file_content_cex :
    List.lookup (mdFilename bmNoAnn) (add_bookmark_to_md bmNoAnn [])
      ≠ some (quotedBlock bmNoAnn) ∧
    List.lookup (mdFilename bmNoAnn) (add_bookmark_to_md bmNoAnn [])
      = some ("\n" ++ quotedBlock bmNoAnn) := by
  have heq := add_md_new_file_eq bmNoAnn [] rfl
  have htexts : (bookmarkTexts bmNoAnn).1 = "\n" ++ quotedBlock bmNoAnn := rfl
  rw [htexts] at heq
  refine ⟨?_, heq⟩
  rw [heq]
  intro h
  exact string_prepend_ne_self "\n" (quotedBlock bmNoAnn) (by decide)
    (Option.some.injEq _ _ ▸ h)

/-- C1 (amended): for a bookmark whose annotation is absent, when no
document for its `(title, author)` exists, `add_bookmark_to_md` produces a
file whose entire content is a single newline followed by the quoted block
(each line of the text prefixed with `"> "`), with no separator block and
no annotation block after it. -/
theorem C1_new_file_no_annotation (bm : Bookmark) (dir : MdDir)
    (hann : Bookmark.annotation bm = none)
    (hnew : List.lookup (mdFilename bm) dir = none) :
    List.lookup (mdFilename bm) (add_bookmark_to_md bm dir)
      = some ("\n" ++ quotedBlock bm) := by
  have heq := add_md_new_file_eq bm dir hnew
  rw [heq]
  unfold bookmarkTexts
  rw [hann]

/-- C1, witness: the amended theorem applied to the concrete bookmark
`bmNoAnn` and the empty directory. -/
theorem C1_new_file_no_annotation_witness :
    List.lookup (mdFilename bmNoAnn) (add_bookmark_to_md bmNoAnn [])
      = some ("\n" ++ quotedBlock bmNoAnn) :=
  C1_new_file_no_annotation bmNoAnn [] rfl rfl

/-- Concrete bookmark with an empty-string (non-null, falsy) annotation. -/
def bmEmptyAnn : Bookmark :=
  { id := some "id2", text := "t", annotation := some "",
    title := "T", author := "A" }

/-- A one-file directory holding the document `bmEmptyAnn` targets. -/
def dirWithOld : MdDir := [("T - A.md", "OLD")]

/-- C2, counterexample: for the non-null annotation `""` (falsy in Python),
the code appends only `"\n\n***\n\n" ++ quoted`, not the claimed
separator + quoted + blank line + annotation. -/
theorem C2_existing_file_cex :
    List.lookup (mdFilename bmEmptyAnn) (add_bookmark_to_md bmEmptyAnn dirWithOld)
      ≠ some ("OLD" ++ ("\n\n***\n\n" ++ quotedBlock bmEmptyAnn ++ "\n\n" ++ "")) ∧
    List.lookup (mdFilename bmEmptyAnn) (add_bookmark_to_md bmEmptyAnn dirWithOld)
      = some ("OLD" ++ ("\n\n***\n\n" ++ quotedBlock bmEmptyAnn)) := by
  have hex : List.lookup (mdFilename bmEmptyAnn) dirWithOld = some "OLD" := rfl
  have heq := add_md_existing_eq bmEmptyAnn dirWithOld "OLD" hex
  have htexts : (bookmarkTexts bmEmptyAnn).2 = "\n\n***\n\n" ++ quotedBlock bmEmptyAnn := rfl
  rw [htexts] at heq
  refine ⟨?_, heq⟩
  rw [heq]
  intro h
  have hstr := Option.some.injEq _ _ ▸ h
  have hlen := congrArg String.length hstr
  simp only [String.length_append] at hlen
  have h2 : ("\n\n" : String).length = 2 := by decide
  have h0 : ("" : String).length = 0 := by decide
  omega

/-- C2 (amended): for every bookmark whose annotation is non-null *and
non-empty*, when a document for the same `(title, author)` exists with
content `old`, `add_bookmark_to_md` leaves the file's content equal to
`old` followed by exactly the separator block `"\n\n***\n\n"`, the quoted
text, a blank line, and the annotation; the prior content is preserved
byte-for-byte.  (A non-null empty-string annotation is treated as absent.) -/
theorem C2_existing_file_append (bm : Bookmark) (dir : MdDir) (a old : String)
    (hann : Bookmark.annotation bm = some a)
    (hne : a.isEmpty = false)
    (hex : List.lookup (mdFilename bm) dir = some old) :
    List.lookup (mdFilename bm) (add_bookmark_to_md bm dir)
      = some (old ++ ("\n\n***\n\n" ++ quotedBlock bm ++ "\n\n" ++ a)) := by
  have heq := add_md_existing_eq bm dir old hex
  rw [heq]
  unfold bookmarkTexts
  rw [hann]
  simp [hne]

/-- Concrete bookmark with a real annotation, targeting `dirWithOld`. -/
def bmRealAnn : Bookmark :=
  { id := some "id3", text := "t", annotation := some "note",
    title := "T", author := "A" }

/-- C2, witness: the amended theorem applied to `bmRealAnn` over the
one-file directory `dirWithOld`. -/
theorem C2_existing_file_append_witness :
    List.lookup (mdFilename bmRealAnn) (add_bookmark_to_md bmRealAnn dirWithOld)
      = some ("OLD" ++ ("\n\n***\n\n" ++ quotedBlock bmRealAnn ++ "\n\n" ++ "note")) :=
  C2_existing_file_append bmRealAnn dirWithOld "note" "OLD" rfl rfl rfl

/-! ## The import ledger (`query_bookmark_ids_from_json`,
`write_bookmark_id_to_json`, functions.py lines 172-245) -/

/-- An id stored in the ledger (`Bookmark_id = str | None` in the source:
the JSON array may hold nulls). -/
abbrev BookmarkId := Option String

/-- The state of the ledger JSON file on disk.  `valid ids` is a file that
parses as `{"imported_bookmark_ids": ids}` with `ids` a list; `corrupt raw`
is a file with raw bytes `raw` that is unparseable or fails the structural
check (wrong shape, missing key, or value not a list) — all such files take
the same `except (JSONDecodeError, KeyError, TypeError)` branch in the
source, so they are modelled by one constructor carrying the raw bytes. -/
inductive LedgerFile where
  | absent
  | valid (ids : List BookmarkId)
  | corrupt (raw : String)
deriving DecidableEq

/-- `query_bookmark_ids_from_json(json_filepath)` (functions.py, lines
172-227), with the `Confirm.ask` prompt modelled by `confirmReset` and
`typer.Abort` by a `none` second component.  The first component is the
file state after the call:

* no file → a fresh empty ledger is written and `[]` returned;
* a valid file → its id list is returned, the file untouched;
* a corrupt file → if the user confirms, an empty ledger is written and
  `[]` returned; if the user declines, the call aborts and the file keeps
  its raw bytes. -/
def query_bookmark_ids_from_json (f : LedgerFile) (confirmReset : Bool) :
    LedgerFile × Option (List BookmarkId) :=
  match f with
  | .absent => (.valid [], some [])
  | .valid ids => (.valid ids, some ids)
  | .corrupt raw =>
    if confirmReset then (.valid [], some []) else (.corrupt raw, none)

/-- `write_bookmark_id_to_json(json_filepath, id)` (functions.py, lines
230-245): load the stored ids (which may itself prompt/abort on a corrupt
file), append `id` if it is not already there, and rewrite the whole file.
The boolean result is `false` when the underlying load aborted. -/
def write_bookmark_id_to_json (f : LedgerFile) (confirmReset : Bool)
    (id : BookmarkId) : LedgerFile × Bool :=
  match query_bookmark_ids_from_json f confirmReset with
  | (f', none) => (f', false)
  | (_, some stored) =>
    let stored' := if id ∈ stored then stored else stored ++ [id]
    (.valid stored', true)

/-! ## Claims C3, C4, C6: ledger idempotence, round-trip, corruption -/

/-- C3: `write_bookmark_id_to_json` is idempotent on every valid ledger
state: recording the same id twice yields the same ledger file as
recording it once, and re-adding an id already present leaves the stored
list unchanged. -/
theorem C3_write_id_idempotent (ids : List BookmarkId) (c c' : Bool)
    (x : BookmarkId) :
    (write_bookmark_id_to_json
        (write_bookmark_id_to_json (.valid ids) c x).1 c' x).1
      = (write_bookmark_id_to_json (.valid ids) c x).1 ∧
    (x ∈ ids → (write_bookmark_id_to_json (.valid ids) c x).1 = .valid ids) := by
  by_cases hx : x ∈ ids
  · simp [write_bookmark_id_to_json, query_bookmark_ids_from_json, hx]
  · have hx' : x ∈ ids ++ [x] := List.mem_append_right ids (List.mem_singleton.mpr rfl)
    simp [write_bookmark_id_to_json, query_bookmark_ids_from_json, hx, hx']

/-- C3, witness: recording `"A"` twice into the ledger `["A"]` leaves it at
`["A"]`, discharging both the implication and the double-write equation at
a concrete input. -/
theorem C3_write_id_idempotent_witness :
    (write_bookmark_id_to_json
        (write_bookmark_id_to_json (.valid [some "A"]) true (some "A")).1
        true (some "A")).1
      = (write_bookmark_id_to_json (.valid [some "A"]) true (some "A")).1 ∧
    (write_bookmark_id_to_json (.valid [some "A"]) true (some "A")).1
      = .valid [some "A"] :=
  ⟨(C3_write_id_idempotent [some "A"] true true (some "A")).1,
   (C3_write_id_idempotent [some "A"] true true (some "A")).2 (by decide)⟩

/-- C4: the ledger round-trips through record-then-load: after
`write_bookmark_id_to_json` on a valid ledger holding `prev`, a load
returns `prev` with `x` appended at the end when it was absent and `prev`
unchanged otherwise — no reordering of existing ids. -/
theorem C4_ledger_roundtrip (prev : List BookmarkId) (x : BookmarkId)
    (c c' : Bool) :
    (query_bookmark_ids_from_json
        (write_bookmark_id_to_json (.valid prev) c x).1 c').2
      = some (if x ∈ prev then prev else prev ++ [x]) := by
  by_cases hx : x ∈ prev
  · simp [write_bookmark_id_to_json, query_bookmark_ids_from_json, hx]
  · simp [write_bookmark_id_to_json, query_bookmark_ids_from_json, hx]

/-- C6: when the ledger file is corrupt and the user declines the reset
confirmation, the load aborts (`typer.Abort`) and the file keeps exactly
its previous raw bytes — the ledger is never reset without confirmation. -/
theorem C6_corrupt_decline_preserves (raw : String) :
    query_bookmark_ids_from_json (.corrupt raw) false
      = (.corrupt raw, none) := by
  simp [query_bookmark_ids_from_json]

/-! ## The bookmark extractor (`query_bookmarks_from_ereader`,
functions.py lines 74-169) -/

/-- One row of the sqlite `Bookmark` table, restricted to the columns the
query reads: `UUID, Text, Annotation, VolumeID`. -/
structure BookmarkRow where
  uuid : Option String
  text : Option String
  annotation : Option String
  volumeId : String
deriving DecidableEq

/-- One row of the sqlite `content` table, restricted to the columns the
query reads: `ContentID`, `ContentType`, `Title`, `Attribution`. -/
structure ContentRow where
  contentId : String
  contentType : String
  title : String
  attribution : Option String
deriving DecidableEq

/-- The on-device sqlite snapshot: the two tables the function queries. -/
structure Snapshot where
  bookmarkRows : List BookmarkRow
  contentRows : List ContentRow
deriving DecidableEq

/-- The loop body at functions.py lines 123-164 for one bookmark row:
look up the first `content` row with `ContentID = volume_id AND
ContentType = '6'` (the `fetchone` of the `CONTENT_QUERY`), build the
bookmark dict.  When `fetchone` returns no row, the Python code subscripts
`None` and raises (`TypeError`) — modelled by `none`.
`if queried_author := content_query_result[1]:` is Python truthiness, so a
null and an empty-string attribution both fall back to "Unknown author". -/
def processBookmarkRow (contentRows : List ContentRow) (row : BookmarkRow) :
    Option Bookmark :=
  match contentRows.find? fun c =>
      c.contentId == row.volumeId && c.contentType == "6" with
  | none => none
  | some c =>
    some { id := row.uuid,
           text := (row.text.getD "").trim,
           annotation := row.annotation,
           title := c.title,
           author :=
             match ContentRow.attribution c with
             | some a => if a.isEmpty then "Unknown author" else a.replace " - " "-"
             | none => "Unknown author" }

/-- The `for bookmark_data in cursor_bookmark.execute(BM_QUERY)` loop:
process the rows in order, stopping with `none` at the first row whose
content lookup fails (the uncaught exception aborts the whole loop). -/
def extractRows (contentRows : List ContentRow) :
    List BookmarkRow → Option (List Bookmark)
  | [] => some []
  | row :: rest =>
    match processBookmarkRow contentRows row with
    | none => none
    | some bm => (extractRows contentRows rest).map (bm :: ·)

/-- The observable outcome of `query_bookmarks_from_ereader`.  The
`copyDeleted` flag records whether `local_sqlite.unlink()` (functions.py,
line 168) was reached on that exit path. -/
inductive ExtractResult where
  | abortNoSource
  | extractionError (copyDeleted : Bool)
  | success (bookmarks : List Bookmark) (copyDeleted : Bool)
deriving DecidableEq

/-- `query_bookmarks_from_ereader(sqlite_filepath, copy_dir)` (functions.py,
lines 74-169).  `copyOk` models whether `shutil.copy` succeeds (its
`FileNotFoundError` branch aborts before any copy exists).  The SQL
`WHERE Text IS NOT NULL` filter keeps exactly the rows with non-null text.
`local_sqlite.unlink()` is the last statement of the function with no
`try/finally` around the loop, so it runs only on the success path: an
exception raised while processing a row leaves the working copy behind. -/
def query_bookmarks_from_ereader (copyOk : Bool) (snap : Snapshot) :
    ExtractResult :=
  if copyOk then
    match extractRows snap.contentRows
        (snap.bookmarkRows.filter fun r => r.text.isSome) with
    | none => .extractionError false
    | some bms => .success bms true
  else .abortNoSource

/-- Whether an extraction outcome leaves no working copy behind (on the
`abortNoSource` path the copy was never created). -/
def leavesNoCopy : ExtractResult → Bool
  | .abortNoSource => true
  | .extractionError d => d
  | .success _ d => d

/-! ## Claims C7 and C9: extractor cleanup and page-mark filtering -/

/-- A snapshot whose single bookmark row has text but no matching
`content` row: processing it raises, so the copy is never deleted. -/
def snapNoContent : Snapshot :=
  { bookmarkRows := [{ uuid := some "u1", text := some "highlight",
                       annotation := none, volumeId := "vol" }],
    contentRows := [] }

/-- C7, counterexample: on the extraction-error exit path the working copy
of the snapshot is *not* deleted — `local_sqlite.unlink()` sits after the
query loop with no `try/finally`, so the claimed deletion on every exit
path fails. -/
theorem C7_copy_left_behind_cex :
    query_bookmarks_from_ereader true snapNoContent = .extractionError false ∧
    leavesNoCopy (query_bookmarks_from_ereader true snapNoContent) = false := by
  constructor
  · rfl
  · rfl

/-- C7 (amended): the working copy is deleted on the successful exit path
(and on a `FileNotFoundError` during the copy no working copy is ever
created); on an extraction error raised while processing the rows the copy
is not deleted. -/
theorem C7_copy_deleted_on_success (snap : Snapshot) (bms : List Bookmark)
    (d : Bool)
    (h : query_bookmarks_from_ereader true snap = .success bms d) :
    d = true := by
  unfold query_bookmarks_from_ereader at h
  simp only [if_pos trivial] at h
  cases hrows : extractRows snap.contentRows
      (snap.bookmarkRows.filter fun r => r.text.isSome) with
  | none => rw [hrows] at h; exact absurd h (by simp)
  | some l => rw [hrows] at h; exact (ExtractResult.success.injEq _ _ _ _ ▸ h).2.symm

/-- A one-row snapshot on which extraction succeeds. -/
def snapOk : Snapshot :=
  { bookmarkRows := [{ uuid := some "u1", text := some "highlight",
                       annotation := none, volumeId := "vol" }],
    contentRows := [{ contentId := "vol", contentType := "6",
                      title := "T", attribution := none }] }

/-- C7, witness: the amended theorem applied to `snapOk`, whose extraction
succeeds and whose copy is deleted. -/
theorem C7_copy_deleted_on_success_witness :
    (true : Bool) = true :=
  C7_copy_deleted_on_success snapOk
    [{ id := some "u1", text := ("highlight" : String).trim,
       annotation := none, title := "T", author := "Unknown author" }]
    true rfl

/-- Each bookmark built by the extraction loop carries the `UUID` of the
row it came from, in row order. -/
theorem extractRows_map_id (content : List ContentRow) :
    ∀ rows bms, extractRows content rows = some bms →
      bms.map Bookmark.id = rows.map BookmarkRow.uuid := by
  intro rows
  induction rows with
  | nil =>
    intro bms h
    simp only [extractRows, Option.some.injEq] at h
    simp [← h]
  | cons row rest ih =>
    intro bms h
    unfold extractRows at h
    cases hp : processBookmarkRow content row with
    | none => rw [hp] at h; exact absurd h (by simp)
    | some bm =>
      rw [hp] at h
      obtain ⟨l, hrest, hbms⟩ := Option.map_eq_some'.mp h
      have hid : Bookmark.id bm = BookmarkRow.uuid row := by
        unfold processBookmarkRow at hp
        cases hfind : content.find? fun c =>
            c.contentId == row.volumeId && c.contentType == "6" with
        | none => rw [hfind] at hp; exact absurd hp (by simp)
        | some c =>
          rw [hfind] at hp
          have := (Option.some.injEq _ _ ▸ hp)
          rw [← this]
      subst hbms
      simp [hid, ih l hrest]

/-- C9: whenever extraction succeeds, the returned records are exactly the
snapshot's bookmark rows with non-null text (the SQL
`WHERE Text IS NOT NULL` filter), in the snapshot's natural row order:
the record ids list the kept rows' UUIDs in order, and the record count is
the count of non-null-text rows. -/
theorem C9_extract_filters_pagemarks (snap : Snapshot) (bms : List Bookmark)
    (d : Bool)
    (h : query_bookmarks_from_ereader true snap = .success bms d) :
    bms.map Bookmark.id
        = (snap.bookmarkRows.filter fun r => r.text.isSome).map BookmarkRow.uuid ∧
    bms.length = (snap.bookmarkRows.filter fun r => r.text.isSome).length := by
  unfold query_bookmarks_from_ereader at h
  simp only [if_pos trivial] at h
  cases hrows : extractRows snap.contentRows
      (snap.bookmarkRows.filter fun r => r.text.isSome) with
  | none => rw [hrows] at h; exact absurd h (by simp)
  | some l =>
    rw [hrows] at h
    have hbms : l = bms := (ExtractResult.success.injEq _ _ _ _ ▸ h).1
    subst hbms
    have hmap := extractRows_map_id snap.contentRows _ l hrows
    refine ⟨hmap, ?_⟩
    have := congrArg List.length hmap
    simpa using this

/-- A snapshot with 9 bookmark rows, exactly one of which (row `u5`) has
null text (a page-mark), all resolving against a single `content` row. -/
def snap9 : Snapshot :=
  { bookmarkRows :=
      [{ uuid := some "u1", text := some "t", annotation := none, volumeId := "v" },
       { uuid := some "u2", text := some "t", annotation := none, volumeId := "v" },
       { uuid := some "u3", text := some "t", annotation := none, volumeId := "v" },
       { uuid := some "u4", text := some "t", annotation := none, volumeId := "v" },
       { uuid := some "u5", text := none, annotation := none, volumeId := "v" },
       { uuid := some "u6", text := some "t", annotation := none, volumeId := "v" },
       { uuid := some "u7", text := some "t", annotation := none, volumeId := "v" },
       { uuid := some "u8", text := some "t", annotation := none, volumeId := "v" },
       { uuid := some "u9", text := some "t", annotation := none, volumeId := "v" }],
    contentRows := [{ contentId := "v", contentType := "6",
                      title := "T", attribution := none }] }

/-- The 8 records the extractor returns on `snap9`. -/
def bms9 : List Bookmark :=
  [{ id := some "u1", text := ("t" : String).trim, annotation := none,
     title := "T", author := "Unknown author" },
   { id := some "u2", text := ("t" : String).trim, annotation := none,
     title := "T", author := "Unknown author" },
   { id := some "u3", text := ("t" : String).trim, annotation := none,
     title := "T", author := "Unknown author" },
   { id := some "u4", text := ("t" : String).trim, annotation := none,
     title := "T", author := "Unknown author" },
   { id := some "u6", text := ("t" : String).trim, annotation := none,
     title := "T", author := "Unknown author" },
   { id := some "u7", text := ("t" : String).trim, annotation := none,
     title := "T", author := "Unknown author" },
   { id := some "u8", text := ("t" : String).trim, annotation := none,
     title := "T", author := "Unknown author" },
   { id := some "u9", text := ("t" : String).trim, annotation := none,
     title := "T", author := "Unknown author" }]

/-- C9, witness: on the concrete 9-row snapshot `snap9` (one null-text
row), extraction succeeds with exactly 8 records in row order. -/
theorem C9_extract_filters_pagemarks_witness :
    snap9.bookmarkRows.length = 9 ∧
    bms9.length = 8 ∧
    query_bookmarks_from_ereader true snap9 = .success bms9 true ∧
    bms9.map Bookmark.id
      = (snap9.bookmarkRows.filter fun r => r.text.isSome).map BookmarkRow.uuid :=
  ⟨rfl, rfl, rfl, (C9_extract_filters_pagemarks snap9 bms9 true rfl).1⟩

/-! ## The selection resolver and import orchestrator
(`import_highlights` and `list_highlights`, main.py lines 65-220) -/

/-- The list comprehension at main.py lines 149-151 (`import` command,
selector `"new"`): keep the extracted bookmarks whose id is not among the
already-imported ids. -/
def importNewSubset (bms : List Bookmark) (ids : List BookmarkId) :
    List Bookmark :=
  bms.filter fun bm => decide (Bookmark.id bm ∉ ids)

/-- The list comprehension at main.py lines 83-85 (`ls` command without
`--all`): keep the extracted bookmarks whose id is not among the
already-imported ids. -/
def listHighlightsSubset (bms : List Bookmark) (ids : List BookmarkId) :
    List Bookmark :=
  bms.filter fun bm => decide (Bookmark.id bm ∉ ids)

/-- Python's `str.split()` with no argument (main.py, line 179): split on
runs of whitespace, producing no empty tokens.  Implemented structurally
over the character list so that it evaluates inside the kernel. -/
def splitWhitespaceAux : List Char → List Char → List String
  | [], acc => if acc.isEmpty then [] else [String.mk acc.reverse]
  | c :: rest, acc =>
    if c.isWhitespace then
      if acc.isEmpty then splitWhitespaceAux rest []
      else String.mk acc.reverse :: splitWhitespaceAux rest []
    else splitWhitespaceAux rest (c :: acc)

/-- `bookmark_selection.split()` at main.py, line 179. -/
def splitSelector (sel : String) : List String :=
  splitWhitespaceAux sel.data []

/-- The observable outcome of one `import` run: normal completion, the
user-facing selection error printed at main.py lines 217-220, or a
`typer.Abort` raised while touching the ledger. -/
inductive ImportOutcome where
  | ok
  | selectionError
  | aborted
deriving DecidableEq

/-- The mutable state an `import` run touches: the markdown target
directory and the ledger file. -/
structure ImportState where
  mdDir : MdDir
  ledger : LedgerFile
deriving DecidableEq

/-- The per-bookmark import loop body (main.py, lines 153-155 and its
copies at 160-162, 182-185, 196-199, 207-210): write the markdown file,
then record the id in the ledger.  A `typer.Abort` raised by the ledger
write (corrupt file, reset declined) stops the loop after the markdown
write of the current bookmark. -/
def importBookmarks (c : Bool) :
    List Bookmark → ImportState → ImportState × ImportOutcome
  | [], st => (st, .ok)
  | bm :: rest, st =>
    let md' := add_bookmark_to_md bm st.mdDir
    match write_bookmark_id_to_json st.ledger c (Bookmark.id bm) with
    | (f', true) => importBookmarks c rest ⟨md', f'⟩
    | (f', false) => (⟨md', f'⟩, .aborted)

/-- `import_highlights(bookmark_selection)` (main.py, lines 119-220),
acting on previously extracted bookmarks `bms`: the `match` over the
selector with its four progressive fallback checks (id tokens, then title,
then author, then the selection error). -/
def import_highlights (sel : String) (bms : List Bookmark)
    (confirmReset : Bool) (st : ImportState) : ImportState × ImportOutcome :=
  if sel = "new" then
    match query_bookmark_ids_from_json st.ledger confirmReset with
    | (f', none) => ({ st with ledger := f' }, .aborted)
    | (f', some ids) =>
      importBookmarks confirmReset (importNewSubset bms ids)
        { st with ledger := f' }
  else if sel = "all" then
    importBookmarks confirmReset bms st
  else
    let allIds := bms.map Bookmark.id
    let allTitles := bms.map Bookmark.title
    let allAuthors := bms.map Bookmark.author
    let tokens := splitSelector sel
    if tokens.all fun t => allIds.contains (some t) then
      importBookmarks confirmReset
        (bms.filter fun bm => tokens.any fun t => Bookmark.id bm == some t) st
    else if allTitles.contains sel then
      importBookmarks confirmReset
        (bms.filter fun bm => Bookmark.title bm == sel) st
    else if allAuthors.contains sel then
      importBookmarks confirmReset
        (bms.filter fun bm => Bookmark.author bm == sel) st
    else (st, .selectionError)

/-! ## Claims C5, C8, C10: selection resolution -/

/-- C5: the selector `"new"` resolves to exactly the bookmarks whose id is
absent from the ledger — membership is characterised, extraction order is
preserved (the resolved list is a sublist of the input), and on a valid
ledger the `import` command processes precisely that subset. -/
theorem C5_selector_new_resolution (bms : List Bookmark)
    (ids : List BookmarkId) (md : MdDir) (c : Bool) :
    (∀ bm, bm ∈ importNewSubset bms ids ↔ bm ∈ bms ∧ Bookmark.id bm ∉ ids) ∧
    (importNewSubset bms ids).Sublist bms ∧
    import_highlights "new" bms c ⟨md, .valid ids⟩
      = importBookmarks c (importNewSubset bms ids) ⟨md, .valid ids⟩ := by
  refine ⟨?_, ?_, ?_⟩
  · intro bm
    simp [importNewSubset, List.mem_filter]
  · exact List.filter_sublist bms
  · simp [import_highlights, query_bookmark_ids_from_json]

/-- Three extracted bookmarks with ids `A`, `B`, `C`. -/
def bmsABC : List Bookmark :=
  [{ id := some "A", text := "ta", annotation := none, title := "T", author := "X" },
   { id := some "B", text := "tb", annotation := none, title := "T", author := "X" },
   { id := some "C", text := "tc", annotation := none, title := "T", author := "X" }]

/-- C5, witness: with the ledger holding ids `{A, B}` and extracted
bookmarks `{A, B, C}`, the selector `"new"` resolves to the single
bookmark `C`. -/
theorem C5_selector_new_resolution_witness :
    importNewSubset bmsABC [some "A", some "B"]
      = [{ id := some "C", text := "tc", annotation := none,
           title := "T", author := "X" }] ∧
    ({ id := some "C", text := "tc", annotation := none,
       title := "T", author := "X" } ∈ importNewSubset bmsABC [some "A", some "B"] ↔
     { id := some "C", text := "tc", annotation := none,
       title := "T", author := "X" } ∈ bmsABC ∧
       (some "C" : BookmarkId) ∉ [some "A", some "B"]) :=
  ⟨by decide,
   (C5_selector_new_resolution bmsABC [some "A", some "B"] [] true).1 _⟩

/-- C8: a selector other than `"new"` and `"all"` whose whitespace tokens
are not all bookmark ids and which matches no title and no author makes
the `import` command report the user-facing selection error and leave the
markdown directory and the ledger untouched: nothing is imported. -/
theorem C8_unmatched_selector_error (sel : String) (bms : List Bookmark)
    (c : Bool) (st : ImportState)
    (h1 : sel ≠ "new") (h2 : sel ≠ "all")
    (h3 : ((splitSelector sel).all
        fun t => (bms.map Bookmark.id).contains (some t)) = false)
    (h4 : (bms.map Bookmark.title).contains sel = false)
    (h5 : (bms.map Bookmark.author).contains sel = false) :
    import_highlights sel bms c st = (st, .selectionError) := by
  unfold import_highlights
  simp only [if_neg h1, if_neg h2, h3, h4, h5, Bool.false_eq_true, if_false]

/-- C8, witness: the selector `"nope"` against a one-bookmark list whose
id, title and author all differ from it. -/
theorem C8_unmatched_selector_error_witness :
    import_highlights "nope" [bmNoAnn] true ⟨[], .valid []⟩
      = (⟨[], .valid []⟩, .selectionError) :=
  C8_unmatched_selector_error "nope" [bmNoAnn] true ⟨[], .valid []⟩
    (by decide) (by decide) (by decide) (by decide) (by decide)

/-- C10: the subset the `ls` command prints by default (no `--all`) is,
element for element, the subset the `import` command processes for the
selector `"new"`: both code sites filter out exactly the bookmarks whose
id is already in the ledger. -/
theorem C10_ls_matches_import_new (bms : List Bookmark)
    (ids : List BookmarkId) :
    listHighlightsSubset bms ids = importNewSubset bms ids := rfl

end KoboHighlights
